import Mathlib

/-!
# Trade risk-management tool — verification of the core calculator

Shallow embedding of the position-sizing / leverage-recommendation core of
the trade-risk-management React component (`src/unnamed/part_000`; the
variant in `src/src/App.jsx` shares the validation and ratio code verbatim).

Modelling conventions:
* JavaScript numbers are modelled as rationals (`ℚ`).  All the arithmetic of
  the core is `+ - * /`, `Math.abs`, `Math.min`, `Math.max`, `Math.round`,
  so every computation on parseable inputs is exact rational arithmetic.
* `parseFloat` of a raw text field is modelled as `Option ℚ`: `none` stands
  for an empty/unparsable field (JavaScript `NaN`).  The JS truthiness test
  `!x` on a parsed number is falsy exactly for `NaN` and `0`, i.e. for
  `none` and `some 0`.
* Theorems about divisions carry hypotheses making every divisor nonzero,
  so the total division of `ℚ` (`x / 0 = 0`) is never relied upon where
  JavaScript would produce `Infinity`/`NaN`; the one place a division by
  zero is exercised (a counterexample) yields a value that differs from the
  compared value in the model and in JavaScript alike.
* `Math.round` rounds half toward `+∞`, i.e. `⌊x + 1/2⌋`.
* Display-only string fields that involve number formatting
  (`label`/`description` of the take-profit levels, `formatPHP`) are
  omitted; the `explanation` string of the leverage result, which is plain
  branching on thresholds, is kept.
-/

namespace TradeRisk

/-- Position direction (`positionType` state, `"long"` / `"short"`). -/
inductive PositionType where
  | long
  | short
deriving DecidableEq, Repr

/-- JavaScript `Math.round` on a finite number: round half toward `+∞`. -/
def jsRound (q : ℚ) : ℚ := (⌊q + 1/2⌋ : ℤ)

/-- Result object of `calculateOptimalLeverage`. -/
structure LeverageInfo where
  optimal : ℚ
  riskPercentageMove : ℚ
  explanation : String
deriving DecidableEq, Repr

/-- `getLeverageExplanation(leverage, riskMove)` from `part_000`
(lines 103–115): rationale text keyed to the volatility thresholds. -/
def getLeverageExplanation (_leverage riskMove : ℚ) : String :=
  if riskMove ≥ 10 then "High risk distance - using minimal leverage for safety"
  else if riskMove ≥ 5 then "Moderate risk distance - conservative leverage recommended"
  else if riskMove ≥ 3 then "Balanced risk distance - moderate leverage suitable"
  else if riskMove ≥ 2 then "Low risk distance - higher leverage acceptable"
  else "Tight stop loss - maximum safe leverage calculated"

/-- `calculateOptimalLeverage(entry, stop, capital, riskPct, allocation, maxLev)`
from `part_000` (lines 66–101). -/
def calculateOptimalLeverage (entry stop capital riskPct allocation maxLev : ℚ) :
    LeverageInfo :=
  let riskPerCoin := |entry - stop|
  let riskPercentageMove := riskPerCoin / entry * 100
  let maxRiskAmount := capital * riskPct / 100
  let allocatedCapital := capital * allocation / 100
  let optimalLeverage := maxRiskAmount / (allocatedCapital * (riskPercentageMove / 100))
  let clamped := max 1 (min (jsRound optimalLeverage) maxLev)
  let recommendedLeverage :=
    if riskPercentageMove ≥ 10 then min clamped 2
    else if riskPercentageMove ≥ 5 then min clamped 5
    else if riskPercentageMove ≥ 3 then min clamped 10
    else if riskPercentageMove ≥ 2 then min clamped 20
    else clamped
  { optimal := recommendedLeverage
    riskPercentageMove := riskPercentageMove
    explanation := getLeverageExplanation recommendedLeverage riskPercentageMove }

/-- One take-profit level (price and its R-multiple); the display-only
`label`/`description` strings are omitted. -/
structure TPLevel where
  price : ℚ
  rMultiple : ℚ
deriving DecidableEq, Repr

/-- The three-tier partial take-profit schedule. -/
structure TPLevels where
  tp1 : TPLevel
  tp2 : TPLevel
  tp3 : TPLevel
deriving DecidableEq, Repr

/-- `calculatePartialTPLevels(entry, stop, target, positionType)` from
`part_000` (lines 117–173). -/
def calculatePartialTPLevels (entry stop target : ℚ) (positionType : PositionType) :
    TPLevels :=
  let riskPerCoin := |entry - stop|
  let tp1Price := if positionType = .long then entry + riskPerCoin else entry - riskPerCoin
  let totalReward := |target - entry|
  let rrRatio := totalReward / riskPerCoin
  let tp2Price :=
    if rrRatio ≥ 3 then
      if positionType = .long then entry + riskPerCoin * 2 else entry - riskPerCoin * 2
    else if rrRatio ≥ 2 then
      if positionType = .long then entry + riskPerCoin * 1.5 else entry - riskPerCoin * 1.5
    else
      (tp1Price + target) / 2
  { tp1 := { price := tp1Price, rMultiple := 1 }
    tp2 := { price := tp2Price, rMultiple := |tp2Price - entry| / riskPerCoin }
    tp3 := { price := target, rMultiple := |target - entry| / riskPerCoin } }

/-- One leg of the partial-exit plan. -/
structure TPLeg where
  assets : ℚ
  profit : ℚ
  percent : ℚ
deriving DecidableEq, Repr

/-- Result object of `calculatePartialTPProfits`. -/
structure TPProfits where
  tp1 : TPLeg
  tp2 : TPLeg
  tp3 : TPLeg
  totalProfit : ℚ
  avgExitRMultiple : ℚ
deriving DecidableEq, Repr

/-- `calculatePartialTPProfits(tpLevels, recommendedAssets, riskPerCoin, entry)`
from `part_000` (lines 175–198).  The component state
`partialTP1Percent` / `partialTP2Percent` read by the closure is passed
explicitly. -/
def calculatePartialTPProfits (partialTP1Percent partialTP2Percent : ℚ)
    (tpLevels : TPLevels) (recommendedAssets riskPerCoin entry : ℚ) : TPProfits :=
  let tp1Percent := partialTP1Percent / 100
  let tp2Percent := partialTP2Percent / 100
  let tp3Percent := 1 - tp1Percent - tp2Percent
  let tp1Assets := recommendedAssets * tp1Percent
  let tp2Assets := recommendedAssets * tp2Percent
  let tp3Assets := recommendedAssets * tp3Percent
  let tp1Profit := tp1Assets * |tpLevels.tp1.price - entry|
  let tp2Profit := tp2Assets * |tpLevels.tp2.price - entry|
  let tp3Profit := tp3Assets * |tpLevels.tp3.price - entry|
  let totalProfit := tp1Profit + tp2Profit + tp3Profit
  let avgExitRMultiple := totalProfit / (recommendedAssets * riskPerCoin)
  { tp1 := { assets := tp1Assets, profit := tp1Profit, percent := tp1Percent * 100 }
    tp2 := { assets := tp2Assets, profit := tp2Profit, percent := tp2Percent * 100 }
    tp3 := { assets := tp3Assets, profit := tp3Profit, percent := tp3Percent * 100 }
    totalProfit := totalProfit
    avgExitRMultiple := avgExitRMultiple }

/-- The component state of the calculator screen in `part_000`
(`useState` fields, lines 4–18).  Free-text numeric fields are the result
of `parseFloat`, i.e. `Option ℚ` (`none` = empty/unparsable, JS `NaN`);
the controlled selector fields (`riskPercentage`, `assetAllocation`,
`maxLeverage`, `partialTP1Percent`, `partialTP2Percent`) always hold
parseable numerals and are modelled as `ℚ`.  `exchangeRate` is part of the
state in scope of `calculateRiskReward`; the claims about it require it to
be threaded through. -/
structure AppState where
  entryPrice : Option ℚ
  stopLoss : Option ℚ
  takeProfit : Option ℚ
  totalCapital : Option ℚ
  riskPercentage : ℚ
  assetAllocation : ℚ
  maxLeverage : ℚ
  positionType : PositionType
  exchangeRate : ℚ
  enablePartialTP : Bool
  partialTP1Percent : ℚ
  partialTP2Percent : ℚ
deriving DecidableEq, Repr

/-- The success payload of `calculateRiskReward` (`error: false` object,
lines 269–283 of `part_000`). -/
structure SizingResult where
  riskPerCoin : ℚ
  rewardPerCoin : ℚ
  ratio : ℚ
  maxRiskAmount : ℚ
  allocatedAmount : ℚ
  leverageInfo : Option LeverageInfo
  recommendedAssets : ℚ
  potentialLoss : ℚ
  potentialProfit : ℚ
  positionValue : ℚ
  partialTPLevels : Option TPLevels
  partialTPProfits : Option TPProfits
deriving DecidableEq, Repr

/-- Return value of `calculateRiskReward`: the `{error: true, positionType}`
object or the full sizing result. -/
inductive CalcResult where
  | invalid (positionType : PositionType)
  | ok (r : SizingResult)
deriving DecidableEq, Repr

/-- `calculateRiskReward()` from `part_000` (lines 200–284); `none` models
the early `return null` when entry/stop/target is falsy (unparsable or 0). -/
def calculateRiskReward (s : AppState) : Option CalcResult :=
  match s.entryPrice, s.stopLoss, s.takeProfit with
  | some entry, some stop, some target =>
    if entry = 0 ∨ stop = 0 ∨ target = 0 then none
    else
      let riskPerCoin := if s.positionType = .long then entry - stop else stop - entry
      let rewardPerCoin := if s.positionType = .long then target - entry else entry - target
      let isValid :=
        if s.positionType = .long then stop < entry ∧ target > entry
        else stop > entry ∧ target < entry
      if ¬isValid ∨ riskPerCoin ≤ 0 ∨ rewardPerCoin ≤ 0 then
        some (.invalid s.positionType)
      else
        let ratio := rewardPerCoin / riskPerCoin
        let noSizing : SizingResult :=
          { riskPerCoin := riskPerCoin, rewardPerCoin := rewardPerCoin, ratio := ratio
            maxRiskAmount := 0, allocatedAmount := 0, leverageInfo := none
            recommendedAssets := 0, potentialLoss := 0, potentialProfit := 0
            positionValue := 0, partialTPLevels := none, partialTPProfits := none }
        match s.totalCapital with
        | some capital =>
          if capital = 0 then some (.ok noSizing)
          else
            let maxRiskAmount := capital * s.riskPercentage / 100
            let allocatedAmount := capital * s.assetAllocation / 100
            let leverageInfo := calculateOptimalLeverage entry stop capital
              s.riskPercentage s.assetAllocation s.maxLeverage
            let positionValue := allocatedAmount * leverageInfo.optimal
            let recommendedAssets := positionValue / entry
            let potentialLoss := recommendedAssets * riskPerCoin
            let potentialProfit := recommendedAssets * rewardPerCoin
            let partialTPLevels := calculatePartialTPLevels entry stop target s.positionType
            let partialTPProfits :=
              if s.enablePartialTP then
                some (calculatePartialTPProfits s.partialTP1Percent s.partialTP2Percent
                  partialTPLevels recommendedAssets riskPerCoin entry)
              else none
            some (.ok
              { riskPerCoin := riskPerCoin, rewardPerCoin := rewardPerCoin, ratio := ratio
                maxRiskAmount := maxRiskAmount, allocatedAmount := allocatedAmount
                leverageInfo := some leverageInfo, recommendedAssets := recommendedAssets
                potentialLoss := potentialLoss, potentialProfit := potentialProfit
                positionValue := positionValue, partialTPLevels := some partialTPLevels
                partialTPProfits := partialTPProfits })
        | none => some (.ok noSizing)
  | _, _, _ => none

/-- The `ratio` field of a successful evaluation, if any. -/
def resultRatio : Option CalcResult → Option ℚ
  | some (.ok r) => some r.ratio
  | _ => none

/-- The `avgExitRMultiple` of the partial-exit plan of a successful
evaluation, if any. -/
def resultAvgExitR : Option CalcResult → Option ℚ
  | some (.ok r) =>
    match r.partialTPProfits with
    | some p => some p.avgExitRMultiple
    | none => none
  | _ => none

end TradeRisk

namespace TradeRisk

/-! ## Helper lemmas -/

lemma jsRound_mono {a b : ℚ} (h : a ≤ b) : jsRound a ≤ jsRound b := by
  unfold jsRound
  exact_mod_cast Int.floor_le_floor (by linarith)

lemma jsRound_nonpos {a : ℚ} (h : a < 0) : jsRound a ≤ 0 := by
  unfold jsRound
  have : ⌊a + 1/2⌋ < 1 := by
    rw [Int.floor_lt]
    push_cast
    linarith
  exact_mod_cast by omega

lemma ladder_le_self (m v : ℚ) :
    (if m ≥ 10 then min v 2 else if m ≥ 5 then min v 5 else if m ≥ 3 then min v 10
      else if m ≥ 2 then min v 20 else v) ≤ v := by
  split_ifs <;> simp [min_le_left]

lemma ladder_mono {m1 m2 v1 v2 : ℚ} (hm : m1 ≤ m2) (hv : v2 ≤ v1) :
    (if m2 ≥ 10 then min v2 2 else if m2 ≥ 5 then min v2 5 else if m2 ≥ 3 then min v2 10
      else if m2 ≥ 2 then min v2 20 else v2) ≤
    (if m1 ≥ 10 then min v1 2 else if m1 ≥ 5 then min v1 5 else if m1 ≥ 3 then min v1 10
      else if m1 ≥ 2 then min v1 20 else v1) := by
  split_ifs <;>
    first
      | exact hv
      | linarith
      | exact le_trans (min_le_left _ _) hv
      | exact min_le_min hv (by norm_num)

lemma ladder_int_exists (m x : ℚ) (k L : ℤ) (hx : x = (k : ℚ)) (h1 : 1 ≤ k) (hk : k ≤ L) :
    ∃ n : ℤ,
      (if m ≥ 10 then min x 2 else if m ≥ 5 then min x 5 else if m ≥ 3 then min x 10
        else if m ≥ 2 then min x 20 else x) = (n : ℚ) ∧ 1 ≤ n ∧ n ≤ L := by
  subst hx
  split_ifs
  · exact ⟨min k 2, by push_cast; rfl, by omega, by omega⟩
  · exact ⟨min k 5, by push_cast; rfl, by omega, by omega⟩
  · exact ⟨min k 10, by push_cast; rfl, by omega, by omega⟩
  · exact ⟨min k 20, by push_cast; rfl, by omega, by omega⟩
  · exact ⟨k, rfl, h1, hk⟩

lemma one_le_optimal (e s c r a L : ℚ) : 1 ≤ (calculateOptimalLeverage e s c r a L).optimal := by
  simp only [calculateOptimalLeverage]
  split_ifs <;> first | exact le_max_left 1 _ | exact le_min (le_max_left 1 _) (by norm_num)

lemma resultRatio_eval (s : AppState) (entry stop target : ℚ)
    (he : s.entryPrice = some entry) (hs : s.stopLoss = some stop)
    (ht : s.takeProfit = some target)
    (he0 : entry ≠ 0) (hs0 : stop ≠ 0) (ht0 : target ≠ 0)
    (hv : if s.positionType = .long then stop < entry ∧ entry < target
          else target < entry ∧ entry < stop) :
    resultRatio (calculateRiskReward s) =
      some (if s.positionType = .long then (target - entry) / (entry - stop)
            else (entry - target) / (stop - entry)) := by
  cases hpt : s.positionType with
  | long =>
    rw [hpt, if_pos rfl] at hv
    obtain ⟨h1, h2⟩ := hv
    simp only [calculateRiskReward, he, hs, ht, hpt]
    rw [if_neg (by simp [he0, hs0, ht0])]
    rw [if_neg (by push_neg; refine ⟨⟨h1, h2⟩, ?_, ?_⟩ <;> simp <;> linarith)]
    rcases hcap : s.totalCapital with _ | cap
    · simp [resultRatio]
    · by_cases h0 : cap = 0 <;> simp [resultRatio, h0]
  | short =>
    rw [hpt, if_neg (by simp)] at hv
    obtain ⟨h1, h2⟩ := hv
    simp only [calculateRiskReward, he, hs, ht, hpt]
    rw [if_neg (by simp [he0, hs0, ht0])]
    rw [if_neg (by push_neg; refine ⟨⟨h2, h1⟩, ?_, ?_⟩ <;> simp <;> linarith)]
    rcases hcap : s.totalCapital with _ | cap
    · simp [resultRatio]
    · by_cases h0 : cap = 0 <;> simp [resultRatio, h0]

end TradeRisk

namespace TradeRisk

/-! ## Claim C1 — InvalidDirection iff the directional ordering fails -/

/-- Claim C1: for inputs where entry, stop and target all parse to nonzero
numbers, `calculateRiskReward` returns the `{error: true, positionType}`
result if and only if the directional ordering fails: for a long position it
returns no error exactly when `stopLoss < entryPrice < takeProfit`, for a
short position exactly when `takeProfit < entryPrice < stopLoss`. -/
theorem invalidDirection_iff_ordering_fails (s : AppState) (entry stop target : ℚ)
    (he : s.entryPrice = some entry) (hs : s.stopLoss = some stop)
    (ht : s.takeProfit = some target)
    (he0 : entry ≠ 0) (hs0 : stop ≠ 0) (ht0 : target ≠ 0) :
    calculateRiskReward s = some (.invalid s.positionType) ↔
      ¬(if s.positionType = .long then stop < entry ∧ entry < target
        else target < entry ∧ entry < stop) := by
  cases hpt : s.positionType with
  | long =>
    simp only [calculateRiskReward, he, hs, ht, hpt]
    rw [if_neg (by simp [he0, hs0, ht0])]
    by_cases h1 : stop < entry ∧ entry < target
    · obtain ⟨h1a, h1b⟩ := h1
      rcases hcap : s.totalCapital with _ | cap
      · simp [hcap, h1a, h1b, sub_nonpos, not_le.mpr h1a, not_le.mpr h1b]
      · by_cases hc0 : cap = 0 <;>
          simp [hcap, hc0, h1a, h1b, sub_nonpos, not_le.mpr h1a, not_le.mpr h1b]
    · simp [h1]
  | short =>
    simp only [calculateRiskReward, he, hs, ht, hpt]
    rw [if_neg (by simp [he0, hs0, ht0])]
    by_cases h1 : target < entry ∧ entry < stop
    · obtain ⟨h1a, h1b⟩ := h1
      rcases hcap : s.totalCapital with _ | cap
      · simp [hcap, h1a, h1b, sub_nonpos, not_le.mpr h1a, not_le.mpr h1b]
      · by_cases hc0 : cap = 0 <;>
          simp [hcap, hc0, h1a, h1b, sub_nonpos, not_le.mpr h1a, not_le.mpr h1b]
    · have h2 : ¬(entry < stop ∧ target < entry) := fun h => h1 ⟨h.2, h.1⟩
      simp [h1, h2]

/-- A long trade with the stop above the entry (a wrong ordering). -/
def stateC1 : AppState :=
  { entryPrice := some 100, stopLoss := some 105, takeProfit := some 115
    totalCapital := some 10000, riskPercentage := 1, assetAllocation := 10
    maxLeverage := 75, positionType := .long, exchangeRate := 58.52
    enablePartialTP := true, partialTP1Percent := 50, partialTP2Percent := 30 }

/-- Claim C1 witness: the theorem applied to a concrete misordered long
trade (entry 100, stop 105, target 115). -/
theorem invalidDirection_iff_ordering_fails_witness :
    calculateRiskReward stateC1 = some (.invalid stateC1.positionType) ↔
      ¬(if stateC1.positionType = .long then (105:ℚ) < 100 ∧ (100:ℚ) < 115
        else (115:ℚ) < 100 ∧ (100:ℚ) < 105) :=
  invalidDirection_iff_ordering_fails stateC1 100 105 115 rfl rfl rfl
    (by norm_num) (by norm_num) (by norm_num)

/-! ## Claim C2 — recommended leverage is an integer in `[1, maxLeverage]` -/

/-- Claim C2 counterexample: the claim quantifies over every input, but for
`maxLeverage = 1/2` (entry 100, stop 50, capital 10000, risk 1 %,
allocation 10 %) the recommended leverage is `1`, which exceeds
`maxLeverage`, so it does not lie in `[1, maxLeverage]`. -/
theorem leverage_in_range_counterexample :
    (calculateOptimalLeverage 100 50 10000 1 10 (1/2)).optimal = 1 ∧
    ¬((calculateOptimalLeverage 100 50 10000 1 10 (1/2)).optimal ≤ 1/2) := by
  norm_num [calculateOptimalLeverage, jsRound, getLeverageExplanation]

/-- Claim C2 (amended): if `maxLeverage` is an integer with
`1 ≤ maxLeverage` and the inputs are nondegenerate (`entry > 0`,
`stop ≠ entry`, `capital ≠ 0`, `allocation ≠ 0`, so every division in the
source is by a nonzero number), then the recommended leverage is an integer
in `[1, maxLeverage]`. -/
theorem leverage_integer_in_range_amended (entry stop capital riskPct allocation : ℚ)
    (maxLev : ℤ) (hmax : 1 ≤ maxLev) (hent : 0 < entry) (hes : stop ≠ entry)
    (hcap : capital ≠ 0) (halloc : allocation ≠ 0) :
    ∃ n : ℤ,
      (calculateOptimalLeverage entry stop capital riskPct allocation (maxLev : ℚ)).optimal
        = (n : ℚ) ∧ 1 ≤ n ∧ n ≤ maxLev := by
  simp only [calculateOptimalLeverage]
  refine ladder_int_exists _ _ (max 1 (min (⌊capital * riskPct / 100 /
      (capital * allocation / 100 * (|entry - stop| / entry * 100 / 100)) + 1/2⌋) maxLev))
    maxLev ?_ (le_max_left _ _) (max_le hmax (min_le_right _ _))
  unfold jsRound
  push_cast
  rfl

/-- Claim C2 witness: the amended theorem at entry 100, stop 95,
capital 10000, risk 1 %, allocation 10 %, maxLeverage 75. -/
theorem leverage_integer_in_range_amended_witness :
    ∃ n : ℤ,
      (calculateOptimalLeverage 100 95 10000 1 10 ((75:ℤ) : ℚ)).optimal = (n : ℚ) ∧
      1 ≤ n ∧ n ≤ 75 :=
  leverage_integer_in_range_amended 100 95 10000 1 10 75 (by norm_num) (by norm_num)
    (by norm_num) (by norm_num) (by norm_num)

/-! ## Claim C3 — the concrete long scenario -/

/-- The concrete scenario of the spec: long, entry 100, stop 95, target 115,
capital 10000, risk 1 %, allocation 10 %, max leverage 75. -/
def stateC3 : AppState :=
  { entryPrice := some 100, stopLoss := some 95, takeProfit := some 115
    totalCapital := some 10000, riskPercentage := 1, assetAllocation := 10
    maxLeverage := 75, positionType := .long, exchangeRate := 58.52
    enablePartialTP := true, partialTP1Percent := 50, partialTP2Percent := 30 }

/-- Claim C3: on the concrete long scenario the evaluation returns
`riskPerUnit = 5`, `rewardPerUnit = 15`, `ratio = 3`, `riskPercentMove = 5`,
`recommendedLeverage = 2`, `positionValue = 2000`, `unitsHeld = 20`,
`potentialLoss = 100`, `potentialProfit = 300` (the remaining fields are the
computed partial-exit plan). -/
theorem concrete_long_scenario_values :
    calculateRiskReward stateC3 =
      some (.ok
        { riskPerCoin := 5, rewardPerCoin := 15, ratio := 3
          maxRiskAmount := 100, allocatedAmount := 1000
          leverageInfo :=
            some ⟨2, 5, "Moderate risk distance - conservative leverage recommended"⟩
          recommendedAssets := 20, potentialLoss := 100, potentialProfit := 300
          positionValue := 2000
          partialTPLevels := some ⟨⟨105, 1⟩, ⟨110, 2⟩, ⟨115, 3⟩⟩
          partialTPProfits :=
            some ⟨⟨10, 50, 50⟩, ⟨6, 60, 30⟩, ⟨4, 60, 20⟩, 170, 17/10⟩ }) := by
  norm_num [calculateRiskReward, stateC3, calculateOptimalLeverage, jsRound,
    getLeverageExplanation, calculatePartialTPLevels, calculatePartialTPProfits]

end TradeRisk

namespace TradeRisk

/-! ## Claim C4 — leverage is antitone in the risk-percent move -/

/-- Claim C4: for fixed capital, risk percent, allocation percent and max
leverage, the recommended leverage is non-increasing as `riskPercentMove`
(`|entry − stop| / entry · 100`) grows: of two nondegenerate entry/stop
pairs, the one with the larger move never gets a strictly larger leverage;
and the volatility ladder only caps — the final value never exceeds the
rounded-and-clamped raw leverage. -/
theorem leverage_antitone_in_riskPercentMove
    (e1 s1 e2 s2 capital riskPct allocation maxLev : ℚ)
    (he1 : 0 < e1) (he2 : 0 < e2) (hs1 : s1 ≠ e1) (hs2 : s2 ≠ e2)
    (hcap : capital ≠ 0) (halloc : allocation ≠ 0)
    (hmove : |e1 - s1| / e1 * 100 ≤ |e2 - s2| / e2 * 100) :
    (calculateOptimalLeverage e2 s2 capital riskPct allocation maxLev).optimal ≤
      (calculateOptimalLeverage e1 s1 capital riskPct allocation maxLev).optimal ∧
    (calculateOptimalLeverage e1 s1 capital riskPct allocation maxLev).optimal ≤
      max 1 (min (jsRound (capital * riskPct / 100 /
        (capital * allocation / 100 * (|e1 - s1| / e1 * 100 / 100)))) maxLev) := by
  have hm1 : 0 < |e1 - s1| / e1 * 100 := by
    have : 0 < |e1 - s1| := abs_pos.mpr (sub_ne_zero.mpr (Ne.symm hs1))
    positivity
  have hm2 : 0 < |e2 - s2| / e2 * 100 := by
    have : 0 < |e2 - s2| := abs_pos.mpr (sub_ne_zero.mpr (Ne.symm hs2))
    positivity
  have hB : capital * allocation / 100 ≠ 0 := by
    simp [div_eq_zero_iff, mul_eq_zero, hcap, halloc]
  set A := capital * riskPct / 100 with hA
  set B := capital * allocation / 100 with hBdef
  set m1 := |e1 - s1| / e1 * 100 with hm1def
  set m2 := |e2 - s2| / e2 * 100 with hm2def
  have hopt : ∀ m : ℚ, A / (B * (m / 100)) = (A / B) / (m / 100) := by
    intro m; rw [← div_div]
  have hclamp : max 1 (min (jsRound (A / (B * (m2 / 100)))) maxLev) ≤
      max 1 (min (jsRound (A / (B * (m1 / 100)))) maxLev) := by
    rcases le_or_lt 0 (A / B) with hAB | hAB
    · have hle : A / (B * (m2 / 100)) ≤ A / (B * (m1 / 100)) := by
        rw [hopt, hopt]
        exact div_le_div_of_nonneg_left hAB (by positivity) (by linarith)
      exact max_le_max le_rfl (min_le_min (jsRound_mono hle) le_rfl)
    · have key : ∀ m : ℚ, 0 < m →
          min (jsRound (A / (B * (m / 100)))) maxLev ≤ 1 := by
        intro m hm
        have hneg : A / (B * (m / 100)) < 0 := by
          rw [hopt]
          exact div_neg_of_neg_of_pos hAB (by positivity)
        calc min (jsRound (A / (B * (m / 100)))) maxLev
            ≤ jsRound (A / (B * (m / 100))) := min_le_left _ _
          _ ≤ 0 := jsRound_nonpos hneg
          _ ≤ 1 := by norm_num
      rw [max_eq_left (key m1 hm1), max_eq_left (key m2 hm2)]
  constructor
  · simp only [calculateOptimalLeverage]
    exact ladder_mono hmove hclamp
  · simp only [calculateOptimalLeverage]
    exact ladder_le_self _ _

/-- Claim C4 witness: move 1 % (entry 100, stop 99) versus move 10 %
(entry 100, stop 90) with capital 10000, risk 1 %, allocation 10 %,
max leverage 75. -/
theorem leverage_antitone_in_riskPercentMove_witness :
    (calculateOptimalLeverage 100 90 10000 1 10 75).optimal ≤
      (calculateOptimalLeverage 100 99 10000 1 10 75).optimal ∧
    (calculateOptimalLeverage 100 99 10000 1 10 75).optimal ≤
      max 1 (min (jsRound (10000 * 1 / 100 /
        (10000 * 10 / 100 * (|(100:ℚ) - 99| / 100 * 100 / 100)))) 75) :=
  leverage_antitone_in_riskPercentMove 100 99 100 90 10000 1 10 75
    (by norm_num) (by norm_num) (by norm_num) (by norm_num) (by norm_num) (by norm_num)
    (by rw [show |(100:ℚ) - 99| = 1 by norm_num, show |(100:ℚ) - 90| = 10 by norm_num]
        norm_num)

/-! ## Claim C5 — the ratio is scale-invariant -/

/-- Claim C5: for every valid trade (long or short) and every positive
constant `c`, evaluating with entry, stop and target all multiplied by `c`
yields exactly the same `ratio` as the unscaled trade. -/
theorem ratio_scale_invariant (s : AppState) (entry stop target c : ℚ)
    (he : s.entryPrice = some entry) (hs : s.stopLoss = some stop)
    (ht : s.takeProfit = some target)
    (he0 : entry ≠ 0) (hs0 : stop ≠ 0) (ht0 : target ≠ 0)
    (hv : if s.positionType = .long then stop < entry ∧ entry < target
          else target < entry ∧ entry < stop)
    (hc : 0 < c) :
    resultRatio (calculateRiskReward
      { s with entryPrice := some (c * entry), stopLoss := some (c * stop),
               takeProfit := some (c * target) }) =
    resultRatio (calculateRiskReward s) := by
  have hc0 : c ≠ 0 := ne_of_gt hc
  obtain ⟨ep, sl, tp, tc, rp, aa, ml, pt, ex, en, p1, p2⟩ := s
  simp only at he hs ht hv ⊢
  have hv2 : (if pt = PositionType.long then c * stop < c * entry ∧ c * entry < c * target
      else c * target < c * entry ∧ c * entry < c * stop) := by
    cases pt with
    | long =>
      rw [if_pos rfl] at hv ⊢
      exact ⟨mul_lt_mul_of_pos_left hv.1 hc, mul_lt_mul_of_pos_left hv.2 hc⟩
    | short =>
      rw [if_neg (by simp)] at hv ⊢
      exact ⟨mul_lt_mul_of_pos_left hv.1 hc, mul_lt_mul_of_pos_left hv.2 hc⟩
  conv_lhs => rw [resultRatio_eval _ (c * entry) (c * stop) (c * target) rfl rfl rfl
    (mul_ne_zero hc0 he0) (mul_ne_zero hc0 hs0) (mul_ne_zero hc0 ht0) hv2]
  conv_rhs => rw [resultRatio_eval _ entry stop target he hs ht he0 hs0 ht0 hv]
  congr 1
  cases pt with
  | long =>
    rw [if_pos rfl, if_pos rfl,
      show c * target - c * entry = c * (target - entry) by ring,
      show c * entry - c * stop = c * (entry - stop) by ring,
      mul_div_mul_left _ _ hc0]
  | short =>
    rw [if_neg (by simp), if_neg (by simp),
      show c * entry - c * target = c * (entry - target) by ring,
      show c * stop - c * entry = c * (stop - entry) by ring,
      mul_div_mul_left _ _ hc0]

/-- A valid long trade used to witness scale invariance. -/
def stateC5 : AppState :=
  { entryPrice := some 100, stopLoss := some 95, takeProfit := some 115
    totalCapital := some 10000, riskPercentage := 1, assetAllocation := 10
    maxLeverage := 75, positionType := .long, exchangeRate := 58.52
    enablePartialTP := true, partialTP1Percent := 50, partialTP2Percent := 30 }

/-- Claim C5 witness: doubling entry/stop/target of the valid long trade
(100, 95, 115) leaves the ratio unchanged. -/
theorem ratio_scale_invariant_witness :
    resultRatio (calculateRiskReward
      { stateC5 with entryPrice := some ((2:ℚ) * 100), stopLoss := some ((2:ℚ) * 95),
                     takeProfit := some ((2:ℚ) * 115) }) =
    resultRatio (calculateRiskReward stateC5) :=
  ratio_scale_invariant stateC5 100 95 115 2 rfl rfl rfl (by norm_num) (by norm_num)
    (by norm_num) (by norm_num [stateC5]) (by norm_num)

end TradeRisk

namespace TradeRisk

/-! ## Claim C6 — blended R-multiple equals the ratio when both partial
percentages are zero -/

/-- The C6 counterexample state: a valid long trade with capital present,
partial exits enabled and both partial percentages zero, but allocation
percentage `0`, so the position size is `0` units. -/
def stateC6cex : AppState :=
  { entryPrice := some 100, stopLoss := some 95, takeProfit := some 115
    totalCapital := some 10000, riskPercentage := 1, assetAllocation := 0
    maxLeverage := 75, positionType := .long, exchangeRate := 58.52
    enablePartialTP := true, partialTP1Percent := 0, partialTP2Percent := 0 }

/-- Claim C6 counterexample: with allocation 0 the position is 0 units and
`avgExitRMultiple = 0 / 0` (in the model `0`, in JavaScript `NaN`), which
differs from the ratio `3`, so the claim fails as universally stated. -/
theorem avgExitRMultiple_eq_ratio_counterexample :
    resultAvgExitR (calculateRiskReward stateC6cex) ≠
      resultRatio (calculateRiskReward stateC6cex) := by
  norm_num [stateC6cex, calculateRiskReward, calculateOptimalLeverage, jsRound,
    getLeverageExplanation, calculatePartialTPLevels, calculatePartialTPProfits,
    resultAvgExitR, resultRatio]

/-- Claim C6 (amended): for every valid trade with capital present and
nonzero, partial take-profits enabled, `tp1Percent = tp2Percent = 0`, and a
nonzero allocation percentage (so the position size is nonzero), the
`avgExitRMultiple` computed by `calculatePartialTPProfits` equals the
single-exit `ratio` exactly. -/
theorem avgExitRMultiple_eq_ratio_amended (s : AppState) (entry stop target cap : ℚ)
    (he : s.entryPrice = some entry) (hs : s.stopLoss = some stop)
    (ht : s.takeProfit = some target)
    (he0 : entry ≠ 0) (hs0 : stop ≠ 0) (ht0 : target ≠ 0)
    (hv : if s.positionType = .long then stop < entry ∧ entry < target
          else target < entry ∧ entry < stop)
    (hcap : s.totalCapital = some cap) (hc0 : cap ≠ 0)
    (halloc : s.assetAllocation ≠ 0)
    (hen : s.enablePartialTP = true)
    (hp1 : s.partialTP1Percent = 0) (hp2 : s.partialTP2Percent = 0) :
    resultAvgExitR (calculateRiskReward s) = resultRatio (calculateRiskReward s) := by
  have hopt := one_le_optimal entry stop cap s.riskPercentage s.assetAllocation s.maxLeverage
  have hassets : cap * s.assetAllocation / 100 *
      (calculateOptimalLeverage entry stop cap s.riskPercentage s.assetAllocation
        s.maxLeverage).optimal / entry ≠ 0 := by
    apply div_ne_zero _ he0
    apply mul_ne_zero _ (by linarith)
    exact div_ne_zero (mul_ne_zero hc0 halloc) (by norm_num)
  cases hpt : s.positionType with
  | long =>
    rw [hpt, if_pos rfl] at hv
    obtain ⟨h1, h2⟩ := hv
    simp only [calculateRiskReward, he, hs, ht, hpt, hcap, hen, hp1, hp2]
    rw [if_neg (by simp [he0, hs0, ht0])]
    rw [if_neg (by push_neg; refine ⟨⟨h1, h2⟩, ?_, ?_⟩ <;> simp <;> linarith)]
    rw [if_neg hc0]
    simp only [resultAvgExitR, resultRatio, if_pos rfl, calculatePartialTPProfits,
      calculatePartialTPLevels]
    norm_num
    rw [abs_of_pos (by linarith : (0:ℚ) < target - entry)]
    rw [mul_div_mul_left _ _ hassets]
  | short =>
    rw [hpt, if_neg (by simp)] at hv
    obtain ⟨h1, h2⟩ := hv
    simp only [calculateRiskReward, he, hs, ht, hpt, hcap, hen, hp1, hp2]
    rw [if_neg (by simp [he0, hs0, ht0])]
    rw [if_neg (by push_neg; refine ⟨⟨h2, h1⟩, ?_, ?_⟩ <;> simp <;> linarith)]
    rw [if_neg hc0]
    simp only [resultAvgExitR, resultRatio, if_pos rfl, calculatePartialTPProfits,
      calculatePartialTPLevels]
    simp only [if_neg (show ¬(PositionType.short = PositionType.long) by simp)]
    norm_num
    rw [abs_of_neg (by linarith : target - entry < 0)]
    rw [show -(target - entry) = entry - target by ring, mul_div_mul_left _ _ hassets]

/-- The C6 witness state: the concrete valid long trade with both partial
percentages zero and a nonzero allocation. -/
def stateC6 : AppState :=
  { entryPrice := some 100, stopLoss := some 95, takeProfit := some 115
    totalCapital := some 10000, riskPercentage := 1, assetAllocation := 10
    maxLeverage := 75, positionType := .long, exchangeRate := 58.52
    enablePartialTP := true, partialTP1Percent := 0, partialTP2Percent := 0 }

/-- Claim C6 witness: the amended theorem at the concrete long trade
(100, 95, 115) with capital 10000 and allocation 10 %. -/
theorem avgExitRMultiple_eq_ratio_amended_witness :
    resultAvgExitR (calculateRiskReward stateC6) = resultRatio (calculateRiskReward stateC6) :=
  avgExitRMultiple_eq_ratio_amended stateC6 100 95 115 10000 rfl rfl rfl
    (by norm_num) (by norm_num) (by norm_num) (by norm_num [stateC6]) rfl
    (by norm_num) (by norm_num [stateC6]) rfl rfl rfl

end TradeRisk

namespace TradeRisk

/-! ## Claim C7 — tp2 sits at 1.5R when the reward-risk ratio is exactly 2 -/

/-- Claim C7: when `rrRatio = |target − entry| / |entry − stop|` is exactly
`2`, `calculatePartialTPLevels` places tp2 at `1.5` risk-units from the
entry (toward the target side), so `tp2.rMultiple = 1.5` — the `2R`
placement is reserved for `rrRatio ≥ 3`. -/
theorem tp2_at_one_and_half_R_when_rr_two (entry stop target : ℚ) (pt : PositionType)
    (hes : entry ≠ stop) (hrr : |target - entry| / |entry - stop| = 2) :
    (calculatePartialTPLevels entry stop target pt).tp2.price =
      (if pt = .long then entry + |entry - stop| * 1.5 else entry - |entry - stop| * 1.5) ∧
    (calculatePartialTPLevels entry stop target pt).tp2.rMultiple = 1.5 := by
  have hr0 : |entry - stop| ≠ 0 := by
    simp [abs_ne_zero, sub_ne_zero, hes]
  have hrpos : 0 < |entry - stop| := lt_of_le_of_ne (abs_nonneg _) (Ne.symm hr0)
  simp only [calculatePartialTPLevels, hrr]
  norm_num
  cases pt <;> simp <;>
    rw [abs_of_nonneg (by positivity)] <;> field_simp <;> ring

/-- Claim C7 witness: entry 100, stop 95, target 110 (a reward-risk ratio of
exactly 2) for a long position. -/
theorem tp2_at_one_and_half_R_when_rr_two_witness :
    (calculatePartialTPLevels 100 95 110 .long).tp2.price =
      (if PositionType.long = .long then (100:ℚ) + |(100:ℚ) - 95| * 1.5
        else (100:ℚ) - |(100:ℚ) - 95| * 1.5) ∧
    (calculatePartialTPLevels 100 95 110 .long).tp2.rMultiple = 1.5 :=
  tp2_at_one_and_half_R_when_rr_two 100 95 110 .long (by norm_num)
    (by rw [show |(110:ℚ) - 100| = 10 by norm_num, show |(100:ℚ) - 95| = 5 by norm_num]
        norm_num)

/-! ## Claim C8 — sizing and leverage are computed exactly when capital is
present and nonzero -/

/-- Claim C8: for every valid trade, if `totalCapital` is absent,
unparsable or zero then all sizing fields of the result are `0` and the
leverage info and partial-take-profit plan are absent; if capital is
positive, the sizing fields carry the computed values, the leverage info
and partial levels are present, and the partial-profit plan is present
exactly when partial take-profits are enabled. -/
theorem sizing_computed_iff_capital (s : AppState) (entry stop target : ℚ)
    (he : s.entryPrice = some entry) (hs : s.stopLoss = some stop)
    (ht : s.takeProfit = some target)
    (he0 : entry ≠ 0) (hs0 : stop ≠ 0) (ht0 : target ≠ 0)
    (hv : if s.positionType = .long then stop < entry ∧ entry < target
          else target < entry ∧ entry < stop) :
    ((s.totalCapital = none ∨ s.totalCapital = some 0) →
      ∃ r : SizingResult, calculateRiskReward s = some (.ok r) ∧
        r.maxRiskAmount = 0 ∧ r.allocatedAmount = 0 ∧ r.positionValue = 0 ∧
        r.recommendedAssets = 0 ∧ r.potentialLoss = 0 ∧ r.potentialProfit = 0 ∧
        r.leverageInfo = none ∧ r.partialTPLevels = none ∧ r.partialTPProfits = none) ∧
    (∀ cap : ℚ, s.totalCapital = some cap → 0 < cap →
      ∃ r : SizingResult, calculateRiskReward s = some (.ok r) ∧
        r.maxRiskAmount = cap * s.riskPercentage / 100 ∧
        r.allocatedAmount = cap * s.assetAllocation / 100 ∧
        r.leverageInfo = some (calculateOptimalLeverage entry stop cap
          s.riskPercentage s.assetAllocation s.maxLeverage) ∧
        r.positionValue = r.allocatedAmount * (calculateOptimalLeverage entry stop cap
          s.riskPercentage s.assetAllocation s.maxLeverage).optimal ∧
        r.recommendedAssets = r.positionValue / entry ∧
        r.potentialLoss = r.recommendedAssets * r.riskPerCoin ∧
        r.potentialProfit = r.recommendedAssets * r.rewardPerCoin ∧
        r.partialTPLevels = some (calculatePartialTPLevels entry stop target s.positionType) ∧
        (r.partialTPProfits.isSome = true ↔ s.enablePartialTP = true)) := by
  cases hpt : s.positionType with
  | long =>
    rw [hpt, if_pos rfl] at hv
    obtain ⟨h1, h2⟩ := hv
    simp only [calculateRiskReward, he, hs, ht, hpt]
    rw [if_neg (by simp [he0, hs0, ht0])]
    rw [if_neg (by push_neg; refine ⟨⟨h1, h2⟩, ?_, ?_⟩ <;> simp <;> linarith)]
    constructor
    · rintro (hnone | hzero)
      · rw [hnone]
        exact ⟨_, rfl, rfl, rfl, rfl, rfl, rfl, rfl, rfl, rfl, rfl⟩
      · rw [hzero]
        exact ⟨_, rfl, rfl, rfl, rfl, rfl, rfl, rfl, rfl, rfl, rfl⟩
    · intro cap hcap hpos
      rw [hcap]
      simp only [if_neg (ne_of_gt hpos)]
      refine ⟨_, rfl, rfl, rfl, rfl, rfl, rfl, rfl, rfl, rfl, ?_⟩
      cases hen : s.enablePartialTP <;> simp [hen]
  | short =>
    rw [hpt, if_neg (by simp)] at hv
    obtain ⟨h1, h2⟩ := hv
    simp only [calculateRiskReward, he, hs, ht, hpt]
    rw [if_neg (by simp [he0, hs0, ht0])]
    rw [if_neg (by push_neg; refine ⟨⟨h2, h1⟩, ?_, ?_⟩ <;> simp <;> linarith)]
    constructor
    · rintro (hnone | hzero)
      · rw [hnone]
        exact ⟨_, rfl, rfl, rfl, rfl, rfl, rfl, rfl, rfl, rfl, rfl⟩
      · rw [hzero]
        exact ⟨_, rfl, rfl, rfl, rfl, rfl, rfl, rfl, rfl, rfl, rfl⟩
    · intro cap hcap hpos
      rw [hcap]
      simp only [if_neg (ne_of_gt hpos)]
      refine ⟨_, rfl, rfl, rfl, rfl, rfl, rfl, rfl, rfl, rfl, ?_⟩
      cases hen : s.enablePartialTP <;> simp [hen]

/-- A valid long trade with positive capital, used to witness claim C8. -/
def stateC8 : AppState :=
  { entryPrice := some 100, stopLoss := some 95, takeProfit := some 115
    totalCapital := some 10000, riskPercentage := 1, assetAllocation := 10
    maxLeverage := 75, positionType := .long, exchangeRate := 58.52
    enablePartialTP := true, partialTP1Percent := 50, partialTP2Percent := 30 }

/-- Claim C8 witness: at the concrete valid long trade with capital 10000
the evaluation succeeds and the leverage info is present. -/
theorem sizing_computed_iff_capital_witness :
    ∃ r : SizingResult, calculateRiskReward stateC8 = some (.ok r) ∧
      r.leverageInfo.isSome = true ∧ r.partialTPLevels.isSome = true := by
  obtain ⟨r, hr, -, -, hlev, -, -, -, -, htp, -⟩ :=
    (sizing_computed_iff_capital stateC8 100 95 115 rfl rfl rfl (by norm_num)
      (by norm_num) (by norm_num) (by norm_num [stateC8])).2 10000 rfl (by norm_num)
  exact ⟨r, hr, by simp [hlev], by simp [htp]⟩

end TradeRisk

namespace TradeRisk

/-! ## Claim C9 — the exchange rate does not affect the computation -/

/-- Claim C9: the exchange rate has no effect on the core computation: two
evaluations of identical trade, risk and partial-exit inputs that differ
only in the exchange rate return identical results in every field. -/
theorem exchangeRate_does_not_affect_result (s : AppState) (r : ℚ) :
    calculateRiskReward { s with exchangeRate := r } = calculateRiskReward s := by
  cases s
  rfl

/-! ## Claim C10 — partial levels overshoot the target when the ratio is
below 1 -/

/-- Claim C10: for every valid long trade with `rewardPerUnit <
riskPerUnit` (ratio < 1), tp1 lies strictly beyond the final target and so
does tp2, which is the midpoint of tp1 and the target; symmetrically for
short trades tp1 and tp2 fall strictly below (respectively beyond) the
target, so the three exits are not ordered from entry toward target. -/
theorem tp_levels_beyond_target_when_ratio_lt_one :
    (∀ entry stop target : ℚ, stop < entry → entry < target →
      target - entry < entry - stop →
      (calculatePartialTPLevels entry stop target .long).tp3.price <
        (calculatePartialTPLevels entry stop target .long).tp1.price ∧
      (calculatePartialTPLevels entry stop target .long).tp3.price <
        (calculatePartialTPLevels entry stop target .long).tp2.price ∧
      (calculatePartialTPLevels entry stop target .long).tp2.price =
        ((calculatePartialTPLevels entry stop target .long).tp1.price + target) / 2) ∧
    (∀ entry stop target : ℚ, target < entry → entry < stop →
      entry - target < stop - entry →
      (calculatePartialTPLevels entry stop target .short).tp1.price <
        (calculatePartialTPLevels entry stop target .short).tp3.price ∧
      (calculatePartialTPLevels entry stop target .short).tp2.price <
        (calculatePartialTPLevels entry stop target .short).tp3.price ∧
      (calculatePartialTPLevels entry stop target .short).tp2.price =
        ((calculatePartialTPLevels entry stop target .short).tp1.price + target) / 2) := by
  constructor
  · intro entry stop target h1 h2 h3
    have habs1 : |entry - stop| = entry - stop := abs_of_pos (by linarith)
    have habs2 : |target - entry| = target - entry := abs_of_pos (by linarith)
    have hc3 : ¬(|target - entry| / |entry - stop| ≥ 3) := by
      rw [habs1, habs2, ge_iff_le, not_le]
      calc (target - entry) / (entry - stop) < 1 := (div_lt_one (by linarith)).mpr h3
        _ < 3 := by norm_num
    have hc2 : ¬(|target - entry| / |entry - stop| ≥ 2) := by
      rw [habs1, habs2, ge_iff_le, not_le]
      calc (target - entry) / (entry - stop) < 1 := (div_lt_one (by linarith)).mpr h3
        _ < 2 := by norm_num
    simp only [calculatePartialTPLevels, hc3, hc2, if_false, if_pos rfl]
    simp [habs1]
    constructor
    · linarith
    · linarith
  · intro entry stop target h1 h2 h3
    have habs1 : |entry - stop| = stop - entry := by
      rw [abs_of_neg (by linarith)]; ring
    have habs2 : |target - entry| = entry - target := by
      rw [abs_of_neg (by linarith)]; ring
    have hc3 : ¬(|target - entry| / |entry - stop| ≥ 3) := by
      rw [habs1, habs2, ge_iff_le, not_le]
      calc (entry - target) / (stop - entry) < 1 := (div_lt_one (by linarith)).mpr h3
        _ < 3 := by norm_num
    have hc2 : ¬(|target - entry| / |entry - stop| ≥ 2) := by
      rw [habs1, habs2, ge_iff_le, not_le]
      calc (entry - target) / (stop - entry) < 1 := (div_lt_one (by linarith)).mpr h3
        _ < 2 := by norm_num
    simp only [calculatePartialTPLevels, hc3, hc2, if_false]
    simp [habs1]
    constructor
    · linarith
    · linarith

/-- Claim C10 witness: long trade (entry 100, stop 90, target 105, ratio
1/2) and short trade (entry 100, stop 110, target 96, ratio 2/5). -/
theorem tp_levels_beyond_target_when_ratio_lt_one_witness :
    ((calculatePartialTPLevels 100 90 105 .long).tp3.price <
        (calculatePartialTPLevels 100 90 105 .long).tp1.price ∧
      (calculatePartialTPLevels 100 90 105 .long).tp3.price <
        (calculatePartialTPLevels 100 90 105 .long).tp2.price ∧
      (calculatePartialTPLevels 100 90 105 .long).tp2.price =
        ((calculatePartialTPLevels 100 90 105 .long).tp1.price + 105) / 2) ∧
    ((calculatePartialTPLevels 100 110 96 .short).tp1.price <
        (calculatePartialTPLevels 100 110 96 .short).tp3.price ∧
      (calculatePartialTPLevels 100 110 96 .short).tp2.price <
        (calculatePartialTPLevels 100 110 96 .short).tp3.price ∧
      (calculatePartialTPLevels 100 110 96 .short).tp2.price =
        ((calculatePartialTPLevels 100 110 96 .short).tp1.price + 96) / 2) :=
  ⟨tp_levels_beyond_target_when_ratio_lt_one.1 100 90 105
      (by norm_num) (by norm_num) (by norm_num),
    tp_levels_beyond_target_when_ratio_lt_one.2 100 110 96
      (by norm_num) (by norm_num) (by norm_num)⟩

end TradeRisk
